import Mathlib

/-!
Verification of the Scrollify extension's tick-driven counter/threshold engine.

The definitions below are a shallow embedding of the later background-process
variant of `src/background.ts` (the canonical engine per the design document),
together with `src/classify.ts` and `src/storage.ts`.  JavaScript strings are
modelled as `List Char`, JavaScript numbers holding millisecond counts and
timestamps as `Int`, nullable values as `Option`, and the asynchronous
side-effecting calls (Supabase inserts/upserts, the Twilio call request) as an
explicit list of emitted events.  The ambient environment that the background
script reads (idle flag, focus flag, observed active-tab domain, Twilio/profile
configuration, fetch outcome) is passed in explicitly.
-/

namespace Scrollify

/-- A JavaScript string, modelled as its list of characters. -/
abbrev JSString := List Char

/-- The classification returned by `classifyDomain` (`'productive' | 'unproductive'`);
`null` is modelled by `Option.none` at the use sites. -/
inductive Classification where
  | productive
  | unproductive
deriving DecidableEq, Repr

/-- Theme preference stored in `TrackingState` (`'light' | 'dark'`). -/
inductive Theme where
  | light
  | dark
deriving DecidableEq, Repr

/-- `PRODUCTIVE_TRIGGER_MS = 60000` from background.ts. -/
def PRODUCTIVE_TRIGGER_MS : Int := 60000

/-- `UNPRODUCTIVE_BUFFER_MS = 10000` from background.ts. -/
def UNPRODUCTIVE_BUFFER_MS : Int := 10000

/-- `LEADERBOARD_UPDATE_INTERVAL_MS = 60000` from background.ts. -/
def LEADERBOARD_UPDATE_INTERVAL_MS : Int := 60000

/-- `AI_CALL_TRIGGER_MS = 120000` from background.ts. -/
def AI_CALL_TRIGGER_MS : Int := 120000

/-- `AI_CALL_COOLDOWN_MS = 300000` from background.ts. -/
def AI_CALL_COOLDOWN_MS : Int := 300000

/-- `maxElapsed = 10000` inside `tick` in background.ts: the suspension cap. -/
def MAX_ELAPSED_MS : Int := 10000

/-- The denylist `UNPRODUCTIVE_DOMAINS` from classify.ts. -/
def UNPRODUCTIVE_DOMAINS : List JSString :=
  ["youtube.com".toList, "tiktok.com".toList, "instagram.com".toList]

/-- JavaScript `String.prototype.toLowerCase` restricted to the ASCII range used here. -/
def jsToLower (s : JSString) : JSString := s.map Char.toLower

/-- JavaScript `domain.replace(/^www\./, "")`: remove one leading `www.` if present. -/
def stripLeadingWWW (s : JSString) : JSString :=
  if s.take 4 = "www.".toList then s.drop 4 else s

/-- The normalisation in classify.ts: `domain.toLowerCase().replace(/^www\./, "")`. -/
def normalizeDomain (s : JSString) : JSString := stripLeadingWWW (jsToLower s)

/-- The loop body of `classifyDomain`: a normalised domain matches the denylist when
it equals a denylisted hostname or ends with `"." + hostname`. -/
def matchesUnproductive (n : JSString) : Bool :=
  UNPRODUCTIVE_DOMAINS.any fun u => n == u || List.isSuffixOf ('.' :: u) n

/-- `classifyDomain` from classify.ts.  JavaScript `if (!domain) return null` is
falsy both for `null` and for the empty string, so both map to `none`. -/
def classifyDomain : Option JSString → Option Classification
  | none => none
  | some d =>
    if d = [] then none
    else if matchesUnproductive (normalizeDomain d) then some Classification.unproductive
    else some Classification.productive

/-- `TrackingState` from storage.ts, extended with the `lastCallTriggerTime` field that
the background script reads and writes. -/
structure TrackingState where
  currentDomain : Option JSString
  lastTick : Int
  consecutiveProductiveMs : Int
  unproductiveMsBuffer : Int
  totalProductiveMs : Int
  totalUnproductiveMs : Int
  userId : Option JSString
  theme : Theme
  lastLeaderboardUpdate : Int
  lastCallTriggerTime : Int
deriving DecidableEq, Repr

/-- A `Partial<TrackingState>` as passed to `updateTrackingState`: every field is
optional, `none` meaning the field is absent from the update object. -/
structure TrackingStateUpdate where
  currentDomain : Option (Option JSString) := none
  lastTick : Option Int := none
  consecutiveProductiveMs : Option Int := none
  unproductiveMsBuffer : Option Int := none
  totalProductiveMs : Option Int := none
  totalUnproductiveMs : Option Int := none
  userId : Option (Option JSString) := none
  theme : Option Theme := none
  lastLeaderboardUpdate : Option Int := none
  lastCallTriggerTime : Option Int := none
deriving Repr

/-- `updateTrackingState` from storage.ts: read the stored state, spread the update
over it (`{ ...current, ...updates }`), and store the result.  The stored state is
passed explicitly as `current`. -/
def updateTrackingState (current : TrackingState) (u : TrackingStateUpdate) : TrackingState where
  currentDomain := u.currentDomain.getD current.currentDomain
  lastTick := u.lastTick.getD current.lastTick
  consecutiveProductiveMs := u.consecutiveProductiveMs.getD current.consecutiveProductiveMs
  unproductiveMsBuffer := u.unproductiveMsBuffer.getD current.unproductiveMsBuffer
  totalProductiveMs := u.totalProductiveMs.getD current.totalProductiveMs
  totalUnproductiveMs := u.totalUnproductiveMs.getD current.totalUnproductiveMs
  userId := u.userId.getD current.userId
  theme := u.theme.getD current.theme
  lastLeaderboardUpdate := u.lastLeaderboardUpdate.getD current.lastLeaderboardUpdate
  lastCallTriggerTime := u.lastCallTriggerTime.getD current.lastCallTriggerTime

/-- Observable side effects of the background script: Supabase inserts/upserts and
the Twilio call request. -/
inductive Event where
  | productiveTrigger (domain : JSString) (durationSeconds : Int) (userId : JSString)
  | unproductiveScore (seconds : Int) (userId : JSString)
  | leaderboardUpsert (userId : JSString) (bestScoreSeconds : Int)
  | callPlaced
  | callRequestFailed
deriving DecidableEq, Repr

/-- Environment consulted by `triggerAICall`: whether the Twilio credentials are
present, whether the webhook URL is configured (set and not the placeholder),
the `dads_number` fetched from the profiles row (`none` covers a fetch error or
an empty/whitespace number), and whether the Twilio call request returned an ok
response with parseable JSON. -/
structure CallEnv where
  credentialsOk : Bool
  webhookConfigured : Bool
  dadsNumber : Option JSString
  responseOk : Bool
deriving Repr

/-- `triggerAICall` from background.ts (later variant).  It validates credentials,
webhook, signed-in user and destination number, sends the call request, and only
after an ok response writes `lastCallTriggerTime := now` and resets
`consecutiveProductiveMs` and `totalProductiveMs` to 0.  Every early return —
including a non-ok response or a thrown error — leaves the state untouched.
Note that this variant performs no cooldown check. -/
def triggerAICall (env : CallEnv) (now : Int) (s : TrackingState) :
    TrackingState × List Event :=
  if ¬ env.credentialsOk then (s, [])
  else if ¬ env.webhookConfigured then (s, [])
  else
    match s.userId with
    | none => (s, [])
    | some _ =>
      match env.dadsNumber with
      | none => (s, [])
      | some _ =>
        if env.responseOk then
          ({ s with
              lastCallTriggerTime := now
              consecutiveProductiveMs := 0
              totalProductiveMs := 0 },
           [Event.callPlaced])
        else
          (s, [Event.callRequestFailed])

/-- `updateDomain` from background.ts (later variant): flush due events for the
previous domain, then apply the transition-based reset policy and write the new
domain together with `lastTick := now`. -/
def updateDomain (now : Int) (s : TrackingState) (newDomain : Option JSString) :
    TrackingState × List Event :=
  if s.currentDomain = newDomain then (s, [])
  else
    let previousClassification := classifyDomain s.currentDomain
    let newClassification := classifyDomain newDomain
    let events :=
      match s.currentDomain, s.userId with
      | some d, some uid =>
        if previousClassification = some Classification.productive ∧
            s.consecutiveProductiveMs ≥ PRODUCTIVE_TRIGGER_MS then
          [Event.productiveTrigger d (s.consecutiveProductiveMs / 1000) uid]
        else if previousClassification = some Classification.unproductive ∧
            s.unproductiveMsBuffer ≥ UNPRODUCTIVE_BUFFER_MS then
          [Event.unproductiveScore (s.unproductiveMsBuffer / 1000) uid]
        else []
      | _, _ => []
    let shouldResetProductive :=
      previousClassification = some Classification.productive ∧
      newClassification = some Classification.unproductive
    let shouldResetUnproductive :=
      previousClassification = some Classification.unproductive ∧
      newClassification = some Classification.productive
    ({ s with
        currentDomain := newDomain
        lastTick := now
        consecutiveProductiveMs := if shouldResetProductive then 0 else s.consecutiveProductiveMs
        unproductiveMsBuffer := if shouldResetUnproductive then 0 else s.unproductiveMsBuffer },
     events)

/-- `processTime` from background.ts (later variant).  On a productive tick it may
invoke `triggerAICall` at the upward 120 s crossing and may record the 60 s
productive trigger, then unconditionally writes the incremented counters — the
final write uses the locally computed `newConsecutive`/`newTotal`, so it
overwrites the reset that a successful `triggerAICall` performed.  On an
unproductive tick it flushes the buffer at the 10 s threshold.  With no signed-in
user or no current domain it only advances `lastTick`. -/
def processTime (env : CallEnv) (now : Int) (s : TrackingState) (elapsed : Int) :
    TrackingState × List Event :=
  match s.userId, s.currentDomain with
  | some uid, some dom =>
    match classifyDomain s.currentDomain with
    | some Classification.productive =>
      let newConsecutive := s.consecutiveProductiveMs + elapsed
      let newTotal := s.totalProductiveMs + elapsed
      let afterCall :=
        if newConsecutive ≥ AI_CALL_TRIGGER_MS ∧
            s.consecutiveProductiveMs < AI_CALL_TRIGGER_MS then
          triggerAICall env now s
        else (s, [])
      let triggerEvents :=
        if newConsecutive ≥ PRODUCTIVE_TRIGGER_MS ∧
            s.consecutiveProductiveMs < PRODUCTIVE_TRIGGER_MS then
          [Event.productiveTrigger dom (newConsecutive / 1000) uid]
        else []
      ({ afterCall.1 with
          consecutiveProductiveMs := newConsecutive
          totalProductiveMs := newTotal
          lastTick := now },
       afterCall.2 ++ triggerEvents)
    | some Classification.unproductive =>
      let newBuffer := s.unproductiveMsBuffer + elapsed
      let newTotal := s.totalUnproductiveMs + elapsed
      if newBuffer ≥ UNPRODUCTIVE_BUFFER_MS then
        ({ s with unproductiveMsBuffer := 0, totalUnproductiveMs := newTotal, lastTick := now },
         [Event.unproductiveScore (newBuffer / 1000) uid])
      else
        ({ s with
            unproductiveMsBuffer := newBuffer
            totalUnproductiveMs := newTotal
            lastTick := now },
         [])
    | none => ({ s with lastTick := now }, [])
  | _, _ => ({ s with lastTick := now }, [])

/-- Environment consulted by one invocation of `tick`. -/
structure TickEnv where
  now : Int
  isIdle : Bool
  isWindowFocused : Bool
  observedDomain : Option JSString
  call : CallEnv
deriving Repr

/-- The capping of elapsed time in `tick`: `elapsed > maxElapsed ? maxElapsed : elapsed`. -/
def attributedElapsed (now lastTick : Int) : Int :=
  if now - lastTick > MAX_ELAPSED_MS then MAX_ELAPSED_MS else now - lastTick

/-- `tick` from background.ts (later variant): cap the elapsed time, guard against
non-positive elapsed, pause only when the user is idle AND the window is not
focused, run the Domain-Switch Handler if the observed domain changed, then
attribute the capped elapsed time via `processTime`. -/
def tick (env : TickEnv) (s : TrackingState) : TrackingState × List Event :=
  if attributedElapsed env.now s.lastTick ≤ 0 then
    ({ s with lastTick := env.now }, [])
  else if env.isIdle && !env.isWindowFocused then
    ({ s with lastTick := env.now }, [])
  else if env.observedDomain ≠ s.currentDomain then
    let afterSwitch := updateDomain env.now s env.observedDomain
    let afterProcess := processTime env.call env.now afterSwitch.1 (attributedElapsed env.now s.lastTick)
    (afterProcess.1, afterSwitch.2 ++ afterProcess.2)
  else
    processTime env.call env.now s (attributedElapsed env.now s.lastTick)

/-- Environment consulted by `checkAndUpdateLeaderboard`: the clock and whether the
profiles row for the user exists (the foreign-key precheck in `updateLeaderboard`). -/
structure LeaderboardEnv where
  now : Int
  profileExists : Bool
deriving Repr

/-- `updateLeaderboard` from background.ts: verify the profile exists, then upsert
`best_score := floor(totalUnproductiveMs / 1000)` keyed by the user.  No productive
total is sent and no counter is modified. -/
def updateLeaderboard (profileExists : Bool) (uid : JSString) (totalUnproductiveMs : Int) :
    List Event :=
  if profileExists then [Event.leaderboardUpsert uid (totalUnproductiveMs / 1000)] else []

/-- `checkAndUpdateLeaderboard` from background.ts: with a signed-in user and at
least `LEADERBOARD_UPDATE_INTERVAL_MS` since the last sync, run `updateLeaderboard`
and then write `lastLeaderboardUpdate := now`.  No counter is reset. -/
def checkAndUpdateLeaderboard (env : LeaderboardEnv) (s : TrackingState) :
    TrackingState × List Event :=
  match s.userId with
  | none => (s, [])
  | some uid =>
    if env.now - s.lastLeaderboardUpdate ≥ LEADERBOARD_UPDATE_INTERVAL_MS then
      ({ s with lastLeaderboardUpdate := env.now },
       updateLeaderboard env.profileExists uid s.totalUnproductiveMs)
    else (s, [])

/-- A shared concrete state used by the concrete witnesses below. -/
def baseState : TrackingState :=
  { currentDomain := some "github.com".toList
    lastTick := 0
    consecutiveProductiveMs := 0
    unproductiveMsBuffer := 0
    totalProductiveMs := 0
    totalUnproductiveMs := 0
    userId := some "user-1".toList
    theme := Theme.light
    lastLeaderboardUpdate := 0
    lastCallTriggerTime := 0 }

/-- A call environment in which every validation passes and the request succeeds. -/
def callEnvOK : CallEnv :=
  { credentialsOk := true
    webhookConfigured := true
    dadsNumber := some "5551234567".toList
    responseOk := true }

/-- The cap applied in `tick` is the minimum of the raw elapsed time and the ceiling. -/
theorem attributedElapsed_eq_min (now lastTick : Int) :
    attributedElapsed now lastTick = min (now - lastTick) MAX_ELAPSED_MS := by
  unfold attributedElapsed MAX_ELAPSED_MS
  split <;> omega

/-- The denylist matcher accepts exactly an exact denylisted hostname or a
dot-boundary suffix extension of one. -/
theorem matchesUnproductive_iff (n : JSString) :
    matchesUnproductive n = true ↔
      ∃ u ∈ UNPRODUCTIVE_DOMAINS, n = u ∨ ∃ p, n = p ++ '.' :: u := by
  simp only [matchesUnproductive, List.any_eq_true, Bool.or_eq_true, beq_iff_eq,
    List.isSuffixOf_iff_suffix]
  constructor
  · rintro ⟨u, hu, h | ⟨p, hp⟩⟩
    · exact ⟨u, hu, Or.inl h⟩
    · exact ⟨u, hu, Or.inr ⟨p, hp.symm⟩⟩
  · rintro ⟨u, hu, h | ⟨p, hp⟩⟩
    · exact ⟨u, hu, Or.inl h⟩
    · exact ⟨u, hu, Or.inr ⟨p, hp.symm⟩⟩

/-- C9 counterexample: the empty hostname is a non-null input that matches no
denylist entry, yet `classifyDomain` returns `none` (JavaScript `!domain` is truthy
for the empty string), not `productive` as the claim requires. -/
theorem C9_counterexample :
    classifyDomain (some ([] : JSString)) = none ∧
    matchesUnproductive (normalizeDomain ([] : JSString)) = false ∧
    classifyDomain (some ([] : JSString)) ≠ some Classification.productive := by
  decide

/-- C9 (amended): `classifyDomain` is pure, case- and www-insensitive on the claimed
example, classifies a non-null NON-EMPTY domain as unproductive exactly when its
normalisation equals a denylisted hostname or extends one on a dot boundary,
returns productive for every other non-null non-empty domain, and returns `none`
for null input. -/
theorem C9_classifyDomain_spec :
    classifyDomain (some "www.Example.COM".toList) =
        classifyDomain (some "example.com".toList) ∧
    classifyDomain none = none ∧
    (∀ d : JSString, d ≠ [] →
      (classifyDomain (some d) = some Classification.unproductive ↔
        ∃ u ∈ UNPRODUCTIVE_DOMAINS,
          normalizeDomain d = u ∨ ∃ p, normalizeDomain d = p ++ '.' :: u)) ∧
    (∀ d : JSString, d ≠ [] →
      (classifyDomain (some d) = some Classification.productive ↔
        ¬ ∃ u ∈ UNPRODUCTIVE_DOMAINS,
          normalizeDomain d = u ∨ ∃ p, normalizeDomain d = p ++ '.' :: u)) ∧
    classifyDomain (some "a.b.youtube.com".toList) = some Classification.unproductive ∧
    classifyDomain (some "notyoutube.com".toList) = some Classification.productive := by
  refine ⟨by decide, rfl, ?_, ?_, by decide, by decide⟩
  · intro d hd
    rw [← matchesUnproductive_iff]
    simp only [classifyDomain, if_neg hd]
    cases hM : matchesUnproductive (normalizeDomain d) <;> simp [hM]
  · intro d hd
    rw [← matchesUnproductive_iff]
    simp only [classifyDomain, if_neg hd]
    cases hM : matchesUnproductive (normalizeDomain d) <;> simp [hM]

/-- C9 witness: the amended theorem applied to the concrete non-empty domain
`a.b.youtube.com`. -/
theorem C9_witness :
    "a.b.youtube.com".toList ≠ ([] : JSString) ∧
    (classifyDomain (some "a.b.youtube.com".toList) = some Classification.unproductive ↔
      ∃ u ∈ UNPRODUCTIVE_DOMAINS,
        normalizeDomain "a.b.youtube.com".toList = u ∨
        ∃ p, normalizeDomain "a.b.youtube.com".toList = p ++ '.' :: u) :=
  ⟨by decide, C9_classifyDomain_spec.2.2.1 _ (by decide)⟩

/-- C10: every field of `TrackingState` that the partial update does not name keeps
exactly its stored value across `updateTrackingState`: the operation is a
read-modify-write merge that cannot clobber unmentioned fields. -/
theorem C10_update_preserves_unnamed_fields (current : TrackingState)
    (u : TrackingStateUpdate) :
    (u.currentDomain = none →
      (updateTrackingState current u).currentDomain = current.currentDomain) ∧
    (u.lastTick = none → (updateTrackingState current u).lastTick = current.lastTick) ∧
    (u.consecutiveProductiveMs = none →
      (updateTrackingState current u).consecutiveProductiveMs =
        current.consecutiveProductiveMs) ∧
    (u.unproductiveMsBuffer = none →
      (updateTrackingState current u).unproductiveMsBuffer = current.unproductiveMsBuffer) ∧
    (u.totalProductiveMs = none →
      (updateTrackingState current u).totalProductiveMs = current.totalProductiveMs) ∧
    (u.totalUnproductiveMs = none →
      (updateTrackingState current u).totalUnproductiveMs = current.totalUnproductiveMs) ∧
    (u.userId = none → (updateTrackingState current u).userId = current.userId) ∧
    (u.theme = none → (updateTrackingState current u).theme = current.theme) ∧
    (u.lastLeaderboardUpdate = none →
      (updateTrackingState current u).lastLeaderboardUpdate =
        current.lastLeaderboardUpdate) ∧
    (u.lastCallTriggerTime = none →
      (updateTrackingState current u).lastCallTriggerTime = current.lastCallTriggerTime) := by
  refine ⟨?_, ?_, ?_, ?_, ?_, ?_, ?_, ?_, ?_, ?_⟩ <;> intro h <;>
    simp [updateTrackingState, h]

/-- C10 witness: an update naming only `consecutiveProductiveMs` leaves `userId` and
`theme` at their stored values. -/
theorem C10_witness :
    ({ consecutiveProductiveMs := some 5 } : TrackingStateUpdate).userId = none ∧
    ({ consecutiveProductiveMs := some 5 } : TrackingStateUpdate).theme = none ∧
    (updateTrackingState baseState { consecutiveProductiveMs := some 5 }).userId =
      baseState.userId ∧
    (updateTrackingState baseState { consecutiveProductiveMs := some 5 }).theme =
      baseState.theme := by
  refine ⟨rfl, rfl, ?_, ?_⟩
  · exact (C10_update_preserves_unnamed_fields baseState _).2.2.2.2.2.2.1 rfl
  · exact (C10_update_preserves_unnamed_fields baseState _).2.2.2.2.2.2.2.1 rfl

/-- A call environment identical to `callEnvOK` except that the request fails. -/
def callEnvFail : CallEnv := { callEnvOK with responseOk := false }

/-- Concrete state for the C1 witness: 40 s of productive accrual on `github.com`. -/
def baseStateC1 : TrackingState := { baseState with consecutiveProductiveMs := 40000 }

/-- Concrete state for the C2 witness: 40 s productive accrual and a 7 s buffer. -/
def stateC2 : TrackingState :=
  { baseState with consecutiveProductiveMs := 40000, unproductiveMsBuffer := 7000 }

/-- Concrete state for C6: 120 s of productive accrual, no prior call. -/
def stateC6 : TrackingState :=
  { baseState with consecutiveProductiveMs := 120000, totalProductiveMs := 130000 }

/-- A successful, fully configured call request writes the cooldown anchor and
resets the productive counters. -/
theorem triggerAICall_success (env : CallEnv) (now : Int) (s : TrackingState)
    (uid num : JSString)
    (hc : env.credentialsOk = true) (hw : env.webhookConfigured = true)
    (hu : s.userId = some uid) (hd : env.dadsNumber = some num)
    (hr : env.responseOk = true) :
    triggerAICall env now s =
      ({ s with
          lastCallTriggerTime := now
          consecutiveProductiveMs := 0
          totalProductiveMs := 0 },
       [Event.callPlaced]) := by
  simp [triggerAICall, hc, hw, hu, hd, hr]

/-- A call request whose response is not ok leaves the whole state unchanged. -/
theorem triggerAICall_failRequest (env : CallEnv) (now : Int) (s : TrackingState)
    (hr : env.responseOk = false) :
    (triggerAICall env now s).1 = s := by
  unfold triggerAICall
  repeat' split
  all_goals first | rfl | simp_all

/-- Fields of the state other than the cooldown anchor and the productive counters
are never modified by `triggerAICall`. -/
theorem triggerAICall_frame (env : CallEnv) (now : Int) (s : TrackingState) :
    (triggerAICall env now s).1.currentDomain = s.currentDomain ∧
    (triggerAICall env now s).1.unproductiveMsBuffer = s.unproductiveMsBuffer ∧
    (triggerAICall env now s).1.totalUnproductiveMs = s.totalUnproductiveMs ∧
    (triggerAICall env now s).1.userId = s.userId ∧
    (triggerAICall env now s).1.theme = s.theme ∧
    (triggerAICall env now s).1.lastLeaderboardUpdate = s.lastLeaderboardUpdate := by
  unfold triggerAICall
  repeat' split
  all_goals first | rfl | simp_all

/-- C1: on a domain switch where both the outgoing and the incoming domain classify
as productive, `updateDomain` leaves `consecutiveProductiveMs` unchanged, so
productive time keeps accumulating across productive domains. -/
theorem C1_productive_to_productive_keeps_counter (now : Int) (s : TrackingState)
    (newDomain : Option JSString)
    (hprev : classifyDomain s.currentDomain = some Classification.productive)
    (hnew : classifyDomain newDomain = some Classification.productive) :
    (updateDomain now s newDomain).1.consecutiveProductiveMs =
      s.consecutiveProductiveMs := by
  unfold updateDomain
  by_cases hd : s.currentDomain = newDomain
  · simp [hd]
  · simp [hd, hprev, hnew]

/-- C1 witness: 40 s accrued on `github.com`, then a switch to the productive domain
`stackoverflow.com`, keeps the 40 s counter. -/
theorem C1_witness :
    classifyDomain (baseStateC1.currentDomain) = some Classification.productive ∧
    classifyDomain (some "stackoverflow.com".toList) = some Classification.productive ∧
    (updateDomain 40000 baseStateC1 (some "stackoverflow.com".toList)).1.consecutiveProductiveMs =
      baseStateC1.consecutiveProductiveMs :=
  ⟨by decide, by decide,
    C1_productive_to_productive_keeps_counter 40000 baseStateC1
      (some "stackoverflow.com".toList) (by decide) (by decide)⟩

/-- C2: a productive → unproductive switch resets `consecutiveProductiveMs` to 0 and
leaves `unproductiveMsBuffer` untouched; an unproductive → productive switch resets
`unproductiveMsBuffer` to 0 and leaves `consecutiveProductiveMs` untouched. -/
theorem C2_transition_resets (now : Int) (s : TrackingState)
    (newDomain : Option JSString) :
    (classifyDomain s.currentDomain = some Classification.productive →
      classifyDomain newDomain = some Classification.unproductive →
      (updateDomain now s newDomain).1.consecutiveProductiveMs = 0 ∧
      (updateDomain now s newDomain).1.unproductiveMsBuffer = s.unproductiveMsBuffer) ∧
    (classifyDomain s.currentDomain = some Classification.unproductive →
      classifyDomain newDomain = some Classification.productive →
      (updateDomain now s newDomain).1.unproductiveMsBuffer = 0 ∧
      (updateDomain now s newDomain).1.consecutiveProductiveMs =
        s.consecutiveProductiveMs) := by
  constructor
  · intro hprev hnew
    have hd : s.currentDomain ≠ newDomain := by
      intro h
      rw [h, hnew] at hprev
      exact absurd hprev (by simp)
    unfold updateDomain
    simp [hd, hprev, hnew]
  · intro hprev hnew
    have hd : s.currentDomain ≠ newDomain := by
      intro h
      rw [h, hnew] at hprev
      exact absurd hprev (by simp)
    unfold updateDomain
    simp [hd, hprev, hnew]

/-- C2 witness: with 40 s productive accrued and 7 s buffered, a switch from the
productive `github.com` to the unproductive `youtube.com` zeroes the productive
counter and keeps the buffer at 7 s. -/
theorem C2_witness :
    classifyDomain stateC2.currentDomain = some Classification.productive ∧
    classifyDomain (some "youtube.com".toList) = some Classification.unproductive ∧
    (updateDomain 40000 stateC2 (some "youtube.com".toList)).1.consecutiveProductiveMs = 0 ∧
    (updateDomain 40000 stateC2 (some "youtube.com".toList)).1.unproductiveMsBuffer =
      stateC2.unproductiveMsBuffer :=
  ⟨by decide, by decide,
    (C2_transition_resets 40000 stateC2 (some "youtube.com".toList)).1
      (by decide) (by decide)⟩

/-- C6 counterexample: a qualifying invocation of `triggerAICall` whose request
fails (non-ok response) leaves `lastCallTriggerTime` and both productive counters
exactly as they were — the failure consumes no cooldown and performs no reset,
contrary to the claim. -/
theorem C6_counterexample :
    (triggerAICall callEnvFail 150000 stateC6).1 = stateC6 ∧
    (triggerAICall callEnvFail 150000 stateC6).2 = [Event.callRequestFailed] ∧
    stateC6.lastCallTriggerTime = 0 ∧
    stateC6.consecutiveProductiveMs = 120000 ∧
    ¬((triggerAICall callEnvFail 150000 stateC6).1.lastCallTriggerTime = 150000 ∧
      (triggerAICall callEnvFail 150000 stateC6).1.consecutiveProductiveMs = 0) := by
  decide

/-- C6 (amended): only a successful call request consumes the cooldown and resets
the counters: on a non-ok response (or a thrown error before the state write)
`triggerAICall` leaves the state unchanged, while on a fully configured successful
request it sets `lastCallTriggerTime := now` and zeroes `consecutiveProductiveMs`
and `totalProductiveMs`. -/
theorem C6_failure_leaves_state (env : CallEnv) (now : Int) (s : TrackingState) :
    (env.responseOk = false → (triggerAICall env now s).1 = s) ∧
    (∀ uid num : JSString,
      env.credentialsOk = true → env.webhookConfigured = true →
      s.userId = some uid → env.dadsNumber = some num → env.responseOk = true →
      (triggerAICall env now s).1 =
        { s with
            lastCallTriggerTime := now
            consecutiveProductiveMs := 0
            totalProductiveMs := 0 } ∧
      (triggerAICall env now s).2 = [Event.callPlaced]) := by
  constructor
  · intro hr
    exact triggerAICall_failRequest env now s hr
  · intro uid num hc hw hu hd hr
    rw [triggerAICall_success env now s uid num hc hw hu hd hr]
    exact ⟨rfl, rfl⟩

/-- C6 witness: the amended theorem applied at a concrete failing environment and a
concrete succeeding environment. -/
theorem C6_witness :
    callEnvFail.responseOk = false ∧
    (triggerAICall callEnvFail 150000 stateC6).1 = stateC6 ∧
    (triggerAICall callEnvOK 150000 stateC6).1 =
      { stateC6 with
          lastCallTriggerTime := 150000
          consecutiveProductiveMs := 0
          totalProductiveMs := 0 } :=
  ⟨rfl,
    (C6_failure_leaves_state callEnvFail 150000 stateC6).1 rfl,
    ((C6_failure_leaves_state callEnvOK 150000 stateC6).2 "user-1".toList
      "5551234567".toList rfl rfl rfl rfl rfl).1⟩

/-- Tick environment for the C3 witness: active user, focused window, 1 s elapsed. -/
def envT3 : TickEnv :=
  { now := 1000
    isIdle := false
    isWindowFocused := true
    observedDomain := some "github.com".toList
    call := callEnvOK }

/-- Tick environment for C4: idle user AND unfocused window. -/
def envPause : TickEnv :=
  { now := 1000
    isIdle := true
    isWindowFocused := false
    observedDomain := some "github.com".toList
    call := callEnvOK }

/-- Tick environment for C4: idle user but focused window (only one pause condition). -/
def envIdleFocused : TickEnv :=
  { now := 1000
    isIdle := true
    isWindowFocused := true
    observedDomain := some "github.com".toList
    call := callEnvOK }

/-- On a productive tick, `processTime` always adds the attributed elapsed time to
both productive counters (any reset performed by `triggerAICall` is overwritten by
the final write), advances `lastTick`, and leaves the unproductive counters alone. -/
theorem processTime_productive (env : CallEnv) (now : Int) (s : TrackingState)
    (elapsed : Int) (uid dom : JSString)
    (huid : s.userId = some uid) (hdom : s.currentDomain = some dom)
    (hcls : classifyDomain s.currentDomain = some Classification.productive) :
    (processTime env now s elapsed).1.consecutiveProductiveMs =
      s.consecutiveProductiveMs + elapsed ∧
    (processTime env now s elapsed).1.totalProductiveMs = s.totalProductiveMs + elapsed ∧
    (processTime env now s elapsed).1.lastTick = now ∧
    (processTime env now s elapsed).1.unproductiveMsBuffer = s.unproductiveMsBuffer ∧
    (processTime env now s elapsed).1.totalUnproductiveMs = s.totalUnproductiveMs := by
  have hc : classifyDomain (some dom) = some Classification.productive := by
    rw [← hdom]; exact hcls
  simp only [processTime, huid, hdom, hc]
  refine ⟨trivial, trivial, trivial, ?_, ?_⟩
  · split
    · exact (triggerAICall_frame env now s).2.1
    · rfl
  · split
    · exact (triggerAICall_frame env now s).2.2.1
    · rfl

/-- On an unproductive tick, `processTime` always adds the attributed elapsed time
to the unproductive total, advances `lastTick`, and leaves the productive counters
alone. -/
theorem processTime_unproductive (env : CallEnv) (now : Int) (s : TrackingState)
    (elapsed : Int) (uid dom : JSString)
    (huid : s.userId = some uid) (hdom : s.currentDomain = some dom)
    (hcls : classifyDomain s.currentDomain = some Classification.unproductive) :
    (processTime env now s elapsed).1.totalUnproductiveMs =
      s.totalUnproductiveMs + elapsed ∧
    (processTime env now s elapsed).1.lastTick = now ∧
    (processTime env now s elapsed).1.consecutiveProductiveMs =
      s.consecutiveProductiveMs ∧
    (processTime env now s elapsed).1.totalProductiveMs = s.totalProductiveMs := by
  have hc : classifyDomain (some dom) = some Classification.unproductive := by
    rw [← hdom]; exact hcls
  simp only [processTime, huid, hdom, hc]
  refine ⟨?_, ?_, ?_, ?_⟩ <;> split <;> rfl

/-- With positive capped elapsed time, an active user and an unchanged observed
domain, `tick` reduces to `processTime` on the capped elapsed time. -/
theorem tick_active_same_domain (env : TickEnv) (s : TrackingState)
    (hobs : env.observedDomain = s.currentDomain)
    (hpos : 0 < env.now - s.lastTick)
    (hact : ¬(env.isIdle = true ∧ env.isWindowFocused = false)) :
    tick env s = processTime env.call env.now s (attributedElapsed env.now s.lastTick) := by
  have h1 : ¬ attributedElapsed env.now s.lastTick ≤ 0 := by
    rw [attributedElapsed_eq_min]
    have h2 : (0 : Int) < MAX_ELAPSED_MS := by unfold MAX_ELAPSED_MS; omega
    omega
  have h2 : (env.isIdle && !env.isWindowFocused) = false := by
    cases hI : env.isIdle <;> cases hF : env.isWindowFocused <;> simp_all
  unfold tick
  rw [if_neg h1, h2]
  simp [hobs]

/-- A tick taken while the user is idle AND the window is unfocused only advances
`lastTick` and emits nothing. -/
theorem tick_paused (env : TickEnv) (s : TrackingState)
    (hI : env.isIdle = true) (hF : env.isWindowFocused = false) :
    tick env s = ({ s with lastTick := env.now }, []) := by
  unfold tick
  split
  · rfl
  · rw [hI, hF]
    simp

/-- C3: a tick with raw elapsed `e = now - lastTick > 0` on an unchanged, classified
domain attributes exactly `min e cap` (cap = `MAX_ELAPSED_MS` = 10000) to the
counters selected by the classification, and advances `lastTick` to `now` so that
the capped remainder is discarded rather than carried to a later tick. -/
theorem C3_tick_caps_elapsed (env : TickEnv) (s : TrackingState) (uid dom : JSString)
    (c : Classification)
    (huid : s.userId = some uid) (hdom : s.currentDomain = some dom)
    (hobs : env.observedDomain = s.currentDomain)
    (hcls : classifyDomain s.currentDomain = some c)
    (hpos : 0 < env.now - s.lastTick)
    (hact : ¬(env.isIdle = true ∧ env.isWindowFocused = false)) :
    (tick env s).1.lastTick = env.now ∧
    (c = Classification.productive →
      (tick env s).1.consecutiveProductiveMs =
        s.consecutiveProductiveMs + min (env.now - s.lastTick) MAX_ELAPSED_MS ∧
      (tick env s).1.totalProductiveMs =
        s.totalProductiveMs + min (env.now - s.lastTick) MAX_ELAPSED_MS ∧
      (tick env s).1.unproductiveMsBuffer = s.unproductiveMsBuffer) ∧
    (c = Classification.unproductive →
      (tick env s).1.totalUnproductiveMs =
        s.totalUnproductiveMs + min (env.now - s.lastTick) MAX_ELAPSED_MS ∧
      (tick env s).1.consecutiveProductiveMs = s.consecutiveProductiveMs ∧
      (tick env s).1.totalProductiveMs = s.totalProductiveMs) := by
  rw [tick_active_same_domain env s hobs hpos hact, ← attributedElapsed_eq_min]
  refine ⟨?_, ?_, ?_⟩
  · cases c
    · exact (processTime_productive env.call env.now s _ uid dom huid hdom hcls).2.2.1
    · exact (processTime_unproductive env.call env.now s _ uid dom huid hdom hcls).2.1
  · rintro rfl
    have h := processTime_productive env.call env.now s
      (attributedElapsed env.now s.lastTick) uid dom huid hdom hcls
    exact ⟨h.1, h.2.1, h.2.2.2.1⟩
  · rintro rfl
    have h := processTime_unproductive env.call env.now s
      (attributedElapsed env.now s.lastTick) uid dom huid hdom hcls
    exact ⟨h.1, h.2.2.1, h.2.2.2⟩

/-- C3 witness: a 1 s tick on the productive `github.com` with 40 s already accrued. -/
theorem C3_witness :
    envT3.observedDomain = baseStateC1.currentDomain ∧
    classifyDomain baseStateC1.currentDomain = some Classification.productive ∧
    0 < envT3.now - baseStateC1.lastTick ∧
    ¬(envT3.isIdle = true ∧ envT3.isWindowFocused = false) ∧
    ((tick envT3 baseStateC1).1.lastTick = envT3.now ∧
     (Classification.productive = Classification.productive →
       (tick envT3 baseStateC1).1.consecutiveProductiveMs =
         baseStateC1.consecutiveProductiveMs +
           min (envT3.now - baseStateC1.lastTick) MAX_ELAPSED_MS ∧
       (tick envT3 baseStateC1).1.totalProductiveMs =
         baseStateC1.totalProductiveMs +
           min (envT3.now - baseStateC1.lastTick) MAX_ELAPSED_MS ∧
       (tick envT3 baseStateC1).1.unproductiveMsBuffer =
         baseStateC1.unproductiveMsBuffer) ∧
     (Classification.productive = Classification.unproductive →
       (tick envT3 baseStateC1).1.totalUnproductiveMs =
         baseStateC1.totalUnproductiveMs +
           min (envT3.now - baseStateC1.lastTick) MAX_ELAPSED_MS ∧
       (tick envT3 baseStateC1).1.consecutiveProductiveMs =
         baseStateC1.consecutiveProductiveMs ∧
       (tick envT3 baseStateC1).1.totalProductiveMs =
         baseStateC1.totalProductiveMs)) :=
  ⟨by decide, by decide, by decide, by decide,
    C3_tick_caps_elapsed envT3 baseStateC1 "user-1".toList "github.com".toList
      Classification.productive (by decide) (by decide) (by decide) (by decide)
      (by decide) (by decide)⟩

/-- C4: with positive elapsed time on a classified, unchanged domain, a tick skips
attribution (only `lastTick` advances, nothing is emitted) exactly when the user is
idle AND the window is not focused; when at least one condition fails, a strictly
positive amount of time is attributed to the totals. -/
theorem C4_pause_requires_both (env : TickEnv) (s : TrackingState) (uid dom : JSString)
    (c : Classification)
    (huid : s.userId = some uid) (hdom : s.currentDomain = some dom)
    (hobs : env.observedDomain = s.currentDomain)
    (hcls : classifyDomain s.currentDomain = some c)
    (hpos : 0 < env.now - s.lastTick) :
    ((env.isIdle = true ∧ env.isWindowFocused = false) →
      tick env s = ({ s with lastTick := env.now }, [])) ∧
    (¬(env.isIdle = true ∧ env.isWindowFocused = false) →
      0 < min (env.now - s.lastTick) MAX_ELAPSED_MS ∧
      (tick env s).1.totalProductiveMs + (tick env s).1.totalUnproductiveMs =
        s.totalProductiveMs + s.totalUnproductiveMs +
          min (env.now - s.lastTick) MAX_ELAPSED_MS) := by
  constructor
  · rintro ⟨hI, hF⟩
    exact tick_paused env s hI hF
  · intro hact
    have hmin : 0 < min (env.now - s.lastTick) MAX_ELAPSED_MS := by
      unfold MAX_ELAPSED_MS
      omega
    refine ⟨hmin, ?_⟩
    rw [tick_active_same_domain env s hobs hpos hact, ← attributedElapsed_eq_min]
    cases c
    · have h := processTime_productive env.call env.now s
        (attributedElapsed env.now s.lastTick) uid dom huid hdom hcls
      rw [h.2.1, h.2.2.2.2]
      omega
    · have h := processTime_unproductive env.call env.now s
        (attributedElapsed env.now s.lastTick) uid dom huid hdom hcls
      rw [h.1, h.2.2.2]
      omega

/-- C4 witness: the same state under an idle-and-unfocused tick (attribution
skipped) and under an idle-but-focused tick (attribution happens). -/
theorem C4_witness :
    (envPause.isIdle = true ∧ envPause.isWindowFocused = false) ∧
    tick envPause baseStateC1 = ({ baseStateC1 with lastTick := envPause.now }, []) ∧
    ¬(envIdleFocused.isIdle = true ∧ envIdleFocused.isWindowFocused = false) ∧
    (0 < min (envIdleFocused.now - baseStateC1.lastTick) MAX_ELAPSED_MS ∧
      (tick envIdleFocused baseStateC1).1.totalProductiveMs +
          (tick envIdleFocused baseStateC1).1.totalUnproductiveMs =
        baseStateC1.totalProductiveMs + baseStateC1.totalUnproductiveMs +
          min (envIdleFocused.now - baseStateC1.lastTick) MAX_ELAPSED_MS) :=
  ⟨by decide,
    (C4_pause_requires_both envPause baseStateC1 "user-1".toList "github.com".toList
      Classification.productive (by decide) (by decide) (by decide) (by decide)
      (by decide)).1 (by decide),
    by decide,
    (C4_pause_requires_both envIdleFocused baseStateC1 "user-1".toList
      "github.com".toList Classification.productive (by decide) (by decide)
      (by decide) (by decide) (by decide)).2 (by decide)⟩

/-- Concrete state for C5: 119 s of productive accrual on `github.com`, with a call
trigger 100 s ago so that the 300 s cooldown has NOT elapsed. -/
def stateC5 : TrackingState :=
  { baseState with
      lastTick := 149000
      consecutiveProductiveMs := 119000
      totalProductiveMs := 119000
      lastCallTriggerTime := 50000 }

/-- Concrete state for the C5 witness's second part: already past the threshold. -/
def stateC5past : TrackingState :=
  { baseState with
      lastTick := 150000
      consecutiveProductiveMs := 121000
      totalProductiveMs := 121000
      lastCallTriggerTime := 50000 }

/-- C5 counterexample: at an upward crossing of the 120 s threshold taken while the
cooldown has not elapsed (last call 100 s ago, cooldown 300 s), the code places the
call anyway and overwrites the cooldown anchor — the claim says no call is placed
and no reset occurs in this situation. -/
theorem C5_counterexample :
    stateC5.lastCallTriggerTime > 0 ∧
    150000 - stateC5.lastCallTriggerTime < AI_CALL_COOLDOWN_MS ∧
    stateC5.consecutiveProductiveMs < AI_CALL_TRIGGER_MS ∧
    AI_CALL_TRIGGER_MS ≤ stateC5.consecutiveProductiveMs + 1000 ∧
    (processTime callEnvOK 150000 stateC5 1000).2 = [Event.callPlaced] ∧
    (processTime callEnvOK 150000 stateC5 1000).1.lastCallTriggerTime = 150000 := by
  decide

/-- C5 (amended): on a productive tick with a fully configured call environment, the
AI call fires exactly at the upward crossing of `AI_CALL_TRIGGER_MS`, regardless of
the cooldown (`AI_CALL_COOLDOWN_MS` is never consulted), and the reset performed
inside `triggerAICall` is overwritten by the tick's final counter write, so the
counter continues at `previous + elapsed`; once the counter is at/above the
threshold no later tick fires a call (or touches the cooldown anchor) until an
external reset re-arms the crossing. -/
theorem C5_call_fires_at_crossing_ignoring_cooldown (env : CallEnv) (now : Int)
    (s : TrackingState) (elapsed : Int) (uid dom num : JSString)
    (huid : s.userId = some uid) (hdom : s.currentDomain = some dom)
    (hcls : classifyDomain s.currentDomain = some Classification.productive)
    (hc : env.credentialsOk = true) (hw : env.webhookConfigured = true)
    (hn : env.dadsNumber = some num) (hr : env.responseOk = true)
    (h60 : PRODUCTIVE_TRIGGER_MS ≤ s.consecutiveProductiveMs) :
    (s.consecutiveProductiveMs < AI_CALL_TRIGGER_MS →
      AI_CALL_TRIGGER_MS ≤ s.consecutiveProductiveMs + elapsed →
      (processTime env now s elapsed).2 = [Event.callPlaced] ∧
      (processTime env now s elapsed).1.lastCallTriggerTime = now ∧
      (processTime env now s elapsed).1.consecutiveProductiveMs =
        s.consecutiveProductiveMs + elapsed) ∧
    (AI_CALL_TRIGGER_MS ≤ s.consecutiveProductiveMs →
      (processTime env now s elapsed).2 = [] ∧
      (processTime env now s elapsed).1.lastCallTriggerTime = s.lastCallTriggerTime ∧
      (processTime env now s elapsed).1.consecutiveProductiveMs =
        s.consecutiveProductiveMs + elapsed) := by
  have hcd : classifyDomain (some dom) = some Classification.productive := by
    rw [← hdom]; exact hcls
  constructor
  · intro hlow hcross
    have hnot60 : ¬ s.consecutiveProductiveMs < PRODUCTIVE_TRIGGER_MS := by omega
    simp only [processTime, huid, hdom, hcd]
    rw [if_pos ⟨hcross, hlow⟩, if_neg fun h => hnot60 h.2,
      triggerAICall_success env now s uid num hc hw huid hn hr]
    refine ⟨?_, ?_, ?_⟩
    all_goals first | rfl | trivial
  · intro hhigh
    have hnotLow : ¬ s.consecutiveProductiveMs < AI_CALL_TRIGGER_MS := by omega
    have hnot60 : ¬ s.consecutiveProductiveMs < PRODUCTIVE_TRIGGER_MS := by omega
    simp only [processTime, huid, hdom, hcd]
    rw [if_neg fun h => hnotLow h.2, if_neg fun h => hnot60 h.2]
    refine ⟨?_, ?_, ?_⟩
    all_goals first | rfl | trivial

/-- C5 witness: the amended theorem applied at the concrete crossing state
(call fires despite the active cooldown) and at a state already past the
threshold (no call fires). -/
theorem C5_witness :
    stateC5.consecutiveProductiveMs < AI_CALL_TRIGGER_MS ∧
    AI_CALL_TRIGGER_MS ≤ stateC5.consecutiveProductiveMs + 1000 ∧
    ((processTime callEnvOK 150000 stateC5 1000).2 = [Event.callPlaced] ∧
     (processTime callEnvOK 150000 stateC5 1000).1.lastCallTriggerTime = 150000 ∧
     (processTime callEnvOK 150000 stateC5 1000).1.consecutiveProductiveMs =
       stateC5.consecutiveProductiveMs + 1000) ∧
    AI_CALL_TRIGGER_MS ≤ stateC5past.consecutiveProductiveMs ∧
    ((processTime callEnvOK 151000 stateC5past 1000).2 = [] ∧
     (processTime callEnvOK 151000 stateC5past 1000).1.lastCallTriggerTime =
       stateC5past.lastCallTriggerTime ∧
     (processTime callEnvOK 151000 stateC5past 1000).1.consecutiveProductiveMs =
       stateC5past.consecutiveProductiveMs + 1000) :=
  ⟨by decide, by decide,
    (C5_call_fires_at_crossing_ignoring_cooldown callEnvOK 150000 stateC5 1000
      "user-1".toList "github.com".toList "5551234567".toList (by decide) (by decide)
      (by decide) (by decide) (by decide) (by decide) (by decide) (by decide)).1
      (by decide) (by decide),
    by decide,
    (C5_call_fires_at_crossing_ignoring_cooldown callEnvOK 151000 stateC5past 1000
      "user-1".toList "github.com".toList "5551234567".toList (by decide) (by decide)
      (by decide) (by decide) (by decide) (by decide) (by decide) (by decide)).2
      (by decide)⟩

/-- Concrete state for C7: 5 s productive total and 7 s unproductive total pending,
last sync 100 s ago. -/
def stateC7 : TrackingState :=
  { baseState with totalProductiveMs := 5000, totalUnproductiveMs := 7000 }

/-- Leaderboard environment for C7: the sync is due and the profile row exists. -/
def lbEnv : LeaderboardEnv := { now := 100000, profileExists := true }

/-- C7 counterexample: a due leaderboard sync upserts only the unproductive total
(7 s as `best_score`) — no productive upsert appears in the emitted events — and
resets neither `totalProductiveMs` nor `totalUnproductiveMs`, contrary to the
claim that both totals are upserted and then reset to 0. -/
theorem C7_counterexample :
    lbEnv.now - stateC7.lastLeaderboardUpdate ≥ LEADERBOARD_UPDATE_INTERVAL_MS ∧
    stateC7.userId = some "user-1".toList ∧
    (checkAndUpdateLeaderboard lbEnv stateC7).2 =
      [Event.leaderboardUpsert "user-1".toList 7] ∧
    (checkAndUpdateLeaderboard lbEnv stateC7).1.totalProductiveMs = 5000 ∧
    (checkAndUpdateLeaderboard lbEnv stateC7).1.totalUnproductiveMs = 7000 := by
  decide

/-- C7 (amended): a due leaderboard sync with a signed-in user and an existing
profile row upserts only the running unproductive total (floored to seconds as
`best_score`) and resets neither running total; the only state change is
`lastLeaderboardUpdate := now`. -/
theorem C7_sync_upserts_unproductive_only (env : LeaderboardEnv) (s : TrackingState)
    (uid : JSString) (huid : s.userId = some uid)
    (hdue : env.now - s.lastLeaderboardUpdate ≥ LEADERBOARD_UPDATE_INTERVAL_MS)
    (hprof : env.profileExists = true) :
    checkAndUpdateLeaderboard env s =
      ({ s with lastLeaderboardUpdate := env.now },
       [Event.leaderboardUpsert uid (s.totalUnproductiveMs / 1000)]) := by
  unfold checkAndUpdateLeaderboard updateLeaderboard
  rw [huid]
  simp [hdue, hprof]

/-- C7 witness: the amended theorem applied at the concrete due sync. -/
theorem C7_witness :
    stateC7.userId = some "user-1".toList ∧
    lbEnv.now - stateC7.lastLeaderboardUpdate ≥ LEADERBOARD_UPDATE_INTERVAL_MS ∧
    checkAndUpdateLeaderboard lbEnv stateC7 =
      ({ stateC7 with lastLeaderboardUpdate := lbEnv.now },
       [Event.leaderboardUpsert "user-1".toList (stateC7.totalUnproductiveMs / 1000)]) :=
  ⟨by decide, by decide,
    C7_sync_upserts_unproductive_only lbEnv stateC7 "user-1".toList (by decide)
      (by decide) (by decide)⟩

/-- Concrete state for C8: same as the base state but with no signed-in user. -/
def stateC8 : TrackingState := { baseState with userId := none }

/-- C8 counterexample: with `userId = null` a productive tick attributes nothing —
the counters stay at 0 while the identical state with a signed-in user accrues
1000 ms — contrary to the claim that counters accumulate locally exactly as they
would with a signed-in user. -/
theorem C8_counterexample :
    stateC8.userId = none ∧
    classifyDomain stateC8.currentDomain = some Classification.productive ∧
    (processTime callEnvOK 1000 stateC8 1000).1.consecutiveProductiveMs = 0 ∧
    (processTime callEnvOK 1000 stateC8 1000).1.totalProductiveMs = 0 ∧
    (processTime callEnvOK 1000 stateC8 1000).2 = [] ∧
    (processTime callEnvOK 1000 { stateC8 with userId := some "user-1".toList }
        1000).1.consecutiveProductiveMs = 1000 := by
  decide

/-- C8 (amended): with `userId = null`, `processTime` attributes nothing at all: it
only advances `lastTick` and fires no side effect; local accumulation does NOT
continue. -/
theorem C8_null_user_attributes_nothing (env : CallEnv) (now : Int)
    (s : TrackingState) (elapsed : Int) (h : s.userId = none) :
    processTime env now s elapsed = ({ s with lastTick := now }, []) := by
  cases hd : s.currentDomain <;> simp [processTime, h, hd]

/-- C8 witness: the amended theorem applied at the concrete signed-out state. -/
theorem C8_witness :
    stateC8.userId = none ∧
    processTime callEnvOK 1000 stateC8 1000 = ({ stateC8 with lastTick := 1000 }, []) :=
  ⟨rfl, C8_null_user_attributes_nothing callEnvOK 1000 stateC8 1000 rfl⟩

end Scrollify
